import Mathlib

/-!
Verification development for the GlobalMedTriage orchestration core.

Shallow embedding of the two subsystems the specification covers:

* the resilient fan-out aggregator `run_emergency_flow`
  (src/backend/agent_orchestrator.py) together with the best-effort
  persistence helper `save_triage_log` and the WebSocket send path
  (src/backend/main.py), and
* the persona hand-off machinery of `BaseAgent`
  (src/backend/coral_project/triage.py): context truncation
  (`_truncate_chat_ctx`), the id-deduplicating context merge performed in
  `on_enter`, and `_transfer_to_agent`.

Python dictionaries are modelled as association lists over `String` keys;
Python values as the inductive `Val`; a Python call that may raise is
modelled as an `Except String` outcome (the `String` is the exception
message); the external capability agents (which are not part of the
orchestrator's code) are abstracted as outcome parameters.
-/

namespace GlobalMedTriage

/-- A Python value as it appears in the orchestrator's result dictionaries:
strings, ints, bools and (nested) dicts. -/
inductive Val where
  | str : String → Val
  | nat : Nat → Val
  | bool : Bool → Val
  | obj : List (String × Val) → Val

/-- Python `d.get(k, default)` on a dictionary modelled as an association
list. -/
def dictGetD (d : List (String × Val)) (k : String) (dflt : Val) : Val :=
  match d.lookup k with
  | some v => v
  | none => dflt

/-- Python `str()` as used by the f-string in `run_emergency_flow` when the
ESI level is interpolated.  Scalar values render exactly as in Python; the
dict rendering is an approximation (it never feeds anything but the opaque
translation capability call, so no theorem depends on it). -/
def pyStr : Val → String
  | .str s => s
  | .nat n => toString n
  | .bool b => if b then "True" else "False"
  | .obj _ => "dict"

/-- Fallback dict built by `run_emergency_flow` when the voice transcription
call raises (agent_orchestrator.py line 25). -/
def voiceFallback (user_language e : String) : List (String × Val) :=
  [("text", .str ""), ("language", .str user_language), ("panic", .bool false),
   ("error", .str ("voice_interface: " ++ e))]

/-- Fallback dict built when the medical triage call raises (line 31). -/
def triageFallback (e : String) : List (String × Val) :=
  [("esi_level", .nat 5), ("analysis", .str "unavailable"),
   ("error", .str ("medical_triage: " ++ e))]

/-- Fallback string built when the translation call raises (line 39). -/
def translationFallback (e : String) : Val :=
  .str ("translation_error: " ++ e)

/-- Fallback dict built when the history collection call raises (line 45). -/
def historyFallback (e : String) : List (String × Val) :=
  [("history", .str "unavailable"), ("error", .str ("history_agent: " ++ e))]

/-- Fallback dict built when the vitals call raises (line 51). -/
def vitalsFallback (e : String) : List (String × Val) :=
  [("stress_level", .str "unknown"), ("heart_rate", .nat 0),
   ("error", .str ("vitals_agent: " ++ e))]

/-- Fallback dict built when the insurance verification call raises
(line 57). -/
def insuranceFallback (e : String) : List (String × Val) :=
  [("verified", .bool false), ("provider", .str "Unknown"),
   ("error", .str ("insurance_agent: " ++ e))]

/-- The constant dispatch placeholder (agent_orchestrator.py line 60). -/
def dispatchVal : Val :=
  .obj [("status", .str "pending"), ("location", .str "unknown")]

/-- `voice_result` after the first try/except of `run_emergency_flow`:
the transcription agent's dict on success, the fallback dict on exception. -/
def voiceResult (user_language : String)
    (transcribe_audio : Except String (List (String × Val))) :
    List (String × Val) :=
  match transcribe_audio with
  | .ok v => v
  | .error e => voiceFallback user_language e

/-- `triage_result` after the second try/except: `analyze_symptoms` is
invoked on `voice_result.get("text", "")` and
`voice_result.get("language", user_language)`. -/
def triageResult (user_language : String)
    (transcribe_audio : Except String (List (String × Val)))
    (analyze_symptoms : Val → Val → Except String (List (String × Val))) :
    List (String × Val) :=
  let vr := voiceResult user_language transcribe_audio
  match analyze_symptoms (dictGetD vr "text" (.str ""))
      (dictGetD vr "language" (.str user_language)) with
  | .ok v => v
  | .error e => triageFallback e

/-- `translation` after the third try/except: `translate_medical` is invoked
on the string derived from the triage result's ESI level. -/
def translationResult (user_language : String)
    (transcribe_audio : Except String (List (String × Val)))
    (analyze_symptoms : Val → Val → Except String (List (String × Val)))
    (translate_medical : String → Val → Except String Val) : Val :=
  let vr := voiceResult user_language transcribe_audio
  let tr := triageResult user_language transcribe_audio analyze_symptoms
  match translate_medical
      ("ESI Level: " ++ pyStr (dictGetD tr "esi_level" (.str "unknown")))
      (dictGetD vr "language" (.str user_language)) with
  | .ok v => v
  | .error e => translationFallback e

/-- `run_emergency_flow` (agent_orchestrator.py lines 17-70).  The audio
bytes are implicit in the capability-call parameters; each parameter is the
outcome of the corresponding external agent call, `.error e` meaning the
call raised an exception with message `e`.  Every call is wrapped in its own
try/except, so the function itself is total and returns the composite dict
in source order. -/
def run_emergency_flow (user_language : String)
    (transcribe_audio : Except String (List (String × Val)))
    (analyze_symptoms : Val → Val → Except String (List (String × Val)))
    (translate_medical : String → Val → Except String Val)
    (collect_history analyze_vitals verify_insurance : Except String Val) :
    List (String × Val) :=
  [("voice", .obj (voiceResult user_language transcribe_audio)),
   ("triage", .obj (triageResult user_language transcribe_audio analyze_symptoms)),
   ("translation",
     translationResult user_language transcribe_audio analyze_symptoms translate_medical),
   ("history", match collect_history with
     | .ok v => v
     | .error e => .obj (historyFallback e)),
   ("vitals", match analyze_vitals with
     | .ok v => v
     | .error e => .obj (vitalsFallback e)),
   ("dispatch", dispatchVal),
   ("insurance", match verify_insurance with
     | .ok v => v
     | .error e => .obj (insuranceFallback e))]

/-- C10: the composite result of `run_emergency_flow` has exactly the seven
keys voice, triage, translation, history, vitals, dispatch, insurance —
the six capability keys plus "dispatch" — and the dispatch entry is the
constant `{"status": "pending", "location": "unknown"}`, for every input and
every combination of capability outcomes. -/
theorem run_emergency_flow_seven_keys (user_language : String)
    (transcribe_audio : Except String (List (String × Val)))
    (analyze_symptoms : Val → Val → Except String (List (String × Val)))
    (translate_medical : String → Val → Except String Val)
    (collect_history analyze_vitals verify_insurance : Except String Val) :
    (run_emergency_flow user_language transcribe_audio analyze_symptoms
        translate_medical collect_history analyze_vitals verify_insurance).map Prod.fst
      = ["voice", "triage", "translation", "history", "vitals", "dispatch", "insurance"] ∧
    (run_emergency_flow user_language transcribe_audio analyze_symptoms
        translate_medical collect_history analyze_vitals verify_insurance).lookup "dispatch"
      = some (Val.obj [("status", .str "pending"), ("location", .str "unknown")]) :=
  ⟨rfl, rfl⟩

/-- C1: for every input and every subset of the six capability calls that
raises, `run_emergency_flow` (a total function: every call sits inside its
own try/except) returns a composite result with an entry present for each of
the six capability keys, and each failed capability's entry is exactly the
corresponding fallback, which carries a failure marker (an "error" field for
the dict-shaped capabilities, the "translation_error: " prefix for
translation) together with its degraded default values. -/
theorem run_emergency_flow_resilient (user_language : String)
    (transcribe_audio : Except String (List (String × Val)))
    (analyze_symptoms : Val → Val → Except String (List (String × Val)))
    (translate_medical : String → Val → Except String Val)
    (collect_history analyze_vitals verify_insurance : Except String Val) :
    ((((run_emergency_flow user_language transcribe_audio analyze_symptoms
          translate_medical collect_history analyze_vitals verify_insurance).lookup
            "voice").isSome ∧
      ((run_emergency_flow user_language transcribe_audio analyze_symptoms
          translate_medical collect_history analyze_vitals verify_insurance).lookup
            "triage").isSome ∧
      ((run_emergency_flow user_language transcribe_audio analyze_symptoms
          translate_medical collect_history analyze_vitals verify_insurance).lookup
            "translation").isSome ∧
      ((run_emergency_flow user_language transcribe_audio analyze_symptoms
          translate_medical collect_history analyze_vitals verify_insurance).lookup
            "history").isSome ∧
      ((run_emergency_flow user_language transcribe_audio analyze_symptoms
          translate_medical collect_history analyze_vitals verify_insurance).lookup
            "vitals").isSome ∧
      ((run_emergency_flow user_language transcribe_audio analyze_symptoms
          translate_medical collect_history analyze_vitals verify_insurance).lookup
            "insurance").isSome) ∧
     (∀ e, transcribe_audio = .error e →
       (run_emergency_flow user_language transcribe_audio analyze_symptoms
           translate_medical collect_history analyze_vitals verify_insurance).lookup "voice"
         = some (.obj (voiceFallback user_language e)) ∧
       ((voiceFallback user_language e).lookup "error").isSome) ∧
     (∀ e, analyze_symptoms
         (dictGetD (voiceResult user_language transcribe_audio) "text" (.str ""))
         (dictGetD (voiceResult user_language transcribe_audio) "language"
           (.str user_language)) = .error e →
       (run_emergency_flow user_language transcribe_audio analyze_symptoms
           translate_medical collect_history analyze_vitals verify_insurance).lookup "triage"
         = some (.obj (triageFallback e)) ∧
       ((triageFallback e).lookup "error").isSome) ∧
     (∀ e, (∀ t l, translate_medical t l = .error e) →
       (run_emergency_flow user_language transcribe_audio analyze_symptoms
           translate_medical collect_history analyze_vitals verify_insurance).lookup
             "translation"
         = some (.str ("translation_error: " ++ e))) ∧
     (∀ e, collect_history = .error e →
       (run_emergency_flow user_language transcribe_audio analyze_symptoms
           translate_medical collect_history analyze_vitals verify_insurance).lookup "history"
         = some (.obj (historyFallback e)) ∧
       ((historyFallback e).lookup "error").isSome) ∧
     (∀ e, analyze_vitals = .error e →
       (run_emergency_flow user_language transcribe_audio analyze_symptoms
           translate_medical collect_history analyze_vitals verify_insurance).lookup "vitals"
         = some (.obj (vitalsFallback e)) ∧
       ((vitalsFallback e).lookup "error").isSome) ∧
     (∀ e, verify_insurance = .error e →
       (run_emergency_flow user_language transcribe_audio analyze_symptoms
           translate_medical collect_history analyze_vitals verify_insurance).lookup
             "insurance"
         = some (.obj (insuranceFallback e)) ∧
       ((insuranceFallback e).lookup "error").isSome)) := by
  refine ⟨⟨?_, ?_, ?_, ?_, ?_, ?_⟩, ?_, ?_, ?_, ?_, ?_, ?_⟩
  · simp [run_emergency_flow, List.lookup]
  · simp [run_emergency_flow, List.lookup]
  · simp [run_emergency_flow, List.lookup]
  · simp [run_emergency_flow, List.lookup]
  · simp [run_emergency_flow, List.lookup]
  · simp [run_emergency_flow, List.lookup]
  · intro e he
    refine ⟨?_, rfl⟩
    simp [run_emergency_flow, voiceResult, he, List.lookup]
  · intro e he
    refine ⟨?_, rfl⟩
    simp [run_emergency_flow, triageResult, he, List.lookup]
  · intro e he
    simp [run_emergency_flow, translationResult, translationFallback, he, List.lookup]
  · intro e he
    refine ⟨?_, rfl⟩
    simp [run_emergency_flow, he, List.lookup]
  · intro e he
    refine ⟨?_, rfl⟩
    simp [run_emergency_flow, he, List.lookup]
  · intro e he
    refine ⟨?_, rfl⟩
    simp [run_emergency_flow, he, List.lookup]

/-- Witness for C1: concrete run in which all six capability calls raise;
every failed entry is the documented fallback. -/
theorem run_emergency_flow_resilient_witness :
    (run_emergency_flow "auto" (.error "x") (fun _ _ => .error "x")
        (fun _ _ => .error "x") (.error "x") (.error "x") (.error "x")).lookup "voice"
      = some (.obj (voiceFallback "auto" "x")) ∧
    (run_emergency_flow "auto" (.error "x") (fun _ _ => .error "x")
        (fun _ _ => .error "x") (.error "x") (.error "x") (.error "x")).lookup "triage"
      = some (.obj (triageFallback "x")) ∧
    (run_emergency_flow "auto" (.error "x") (fun _ _ => .error "x")
        (fun _ _ => .error "x") (.error "x") (.error "x") (.error "x")).lookup "translation"
      = some (.str ("translation_error: " ++ "x")) ∧
    (run_emergency_flow "auto" (.error "x") (fun _ _ => .error "x")
        (fun _ _ => .error "x") (.error "x") (.error "x") (.error "x")).lookup "history"
      = some (.obj (historyFallback "x")) ∧
    (run_emergency_flow "auto" (.error "x") (fun _ _ => .error "x")
        (fun _ _ => .error "x") (.error "x") (.error "x") (.error "x")).lookup "vitals"
      = some (.obj (vitalsFallback "x")) ∧
    (run_emergency_flow "auto" (.error "x") (fun _ _ => .error "x")
        (fun _ _ => .error "x") (.error "x") (.error "x") (.error "x")).lookup "insurance"
      = some (.obj (insuranceFallback "x")) := by
  have h := run_emergency_flow_resilient "auto" (.error "x") (fun _ _ => .error "x")
    (fun _ _ => .error "x") (.error "x") (.error "x") (.error "x")
  exact ⟨(h.2.1 "x" rfl).1, (h.2.2.1 "x" rfl).1, h.2.2.2.1 "x" (fun _ _ => rfl),
    (h.2.2.2.2.1 "x" rfl).1, (h.2.2.2.2.2.1 "x" rfl).1, (h.2.2.2.2.2.2 "x" rfl).1⟩

/-- C3 counterexample: with the translation call raising "boom" and the
triage call succeeding with ESI level 2, the composite translation entry is
the string "translation_error: boom" — not an empty-string degraded value as
the claim states (the triage entry does carry level 2). -/
theorem translation_entry_counterexample :
    (run_emergency_flow "auto" (.error "x") (fun _ _ => .ok [("esi_level", Val.nat 2)])
        (fun _ _ => .error "boom") (.error "x") (.error "x") (.error "x")).lookup
          "translation"
      = some (.str "translation_error: boom") ∧
    Val.str "translation_error: boom" ≠ Val.str "" ∧
    (run_emergency_flow "auto" (.error "x") (fun _ _ => .ok [("esi_level", Val.nat 2)])
        (fun _ _ => .error "boom") (.error "x") (.error "x") (.error "x")).lookup "triage"
      = some (.obj [("esi_level", Val.nat 2)]) := by
  refine ⟨rfl, ?_, rfl⟩
  intro h
  exact absurd (Val.str.inj h) (by decide)

/-- C3 amended: when the translation capability fails with message `e` and
the triage capability succeeds with ESI level 2, the composite translation
entry is the single failure-marker string "translation_error: " ++ e (marker
and degraded value combined, not an empty string), and the composite triage
entry still carries ESI level 2. -/
theorem translation_failure_amended (user_language : String)
    (transcribe_audio : Except String (List (String × Val)))
    (analyze_symptoms : Val → Val → Except String (List (String × Val)))
    (translate_medical : String → Val → Except String Val)
    (collect_history analyze_vitals verify_insurance : Except String Val)
    (tr : List (String × Val)) (e : String)
    (htr : analyze_symptoms
        (dictGetD (voiceResult user_language transcribe_audio) "text" (.str ""))
        (dictGetD (voiceResult user_language transcribe_audio) "language"
          (.str user_language)) = .ok tr)
    (hesi : tr.lookup "esi_level" = some (.nat 2))
    (htrans : ∀ t l, translate_medical t l = .error e) :
    (run_emergency_flow user_language transcribe_audio analyze_symptoms
        translate_medical collect_history analyze_vitals verify_insurance).lookup
          "translation"
      = some (.str ("translation_error: " ++ e)) ∧
    ∃ trd, (run_emergency_flow user_language transcribe_audio analyze_symptoms
        translate_medical collect_history analyze_vitals verify_insurance).lookup "triage"
          = some (.obj trd) ∧
      trd.lookup "esi_level" = some (.nat 2) := by
  constructor
  · simp [run_emergency_flow, translationResult, translationFallback, htrans, List.lookup]
  · refine ⟨tr, ?_, hesi⟩
    simp [run_emergency_flow, triageResult, htr, List.lookup]

/-- Witness for C3 (amended): concrete instantiation with triage succeeding
at ESI level 2 and translation raising "boom". -/
theorem translation_failure_amended_witness :
    (run_emergency_flow "auto" (.error "x") (fun _ _ => .ok [("esi_level", Val.nat 2)])
        (fun _ _ => .error "boom") (.error "x") (.error "x") (.error "x")).lookup
          "translation"
      = some (.str ("translation_error: " ++ "boom")) ∧
    (∃ trd, (run_emergency_flow "auto" (.error "x")
        (fun _ _ => .ok [("esi_level", Val.nat 2)]) (fun _ _ => .error "boom") (.error "x")
        (.error "x") (.error "x")).lookup "triage" = some (.obj trd) ∧
      trd.lookup "esi_level" = some (.nat 2)) :=
  translation_failure_amended "auto" (.error "x")
    (fun _ _ => .ok [("esi_level", Val.nat 2)]) (fun _ _ => .error "boom")
    (.error "x") (.error "x") (.error "x") [("esi_level", Val.nat 2)] "boom"
    rfl rfl (fun _ _ => rfl)

/-- The `type` attribute of a livekit conversation item as tested by
`_truncate_chat_ctx`. -/
inductive ItemType where
  | message
  | function_call
  | function_call_output
deriving DecidableEq, Repr

/-- The `role` attribute of a message item. -/
inductive ChatRole where
  | system
  | user
  | assistant
deriving DecidableEq, Repr

/-- A conversation item: id, type, role and content.  `_truncate_chat_ctx`
reads `role` only on items whose `type` is `message`, so carrying a `role`
on every item is harmless. -/
structure Item where
  id : String
  type : ItemType
  role : ChatRole
  content : String
deriving DecidableEq, Repr

/-- The inner `_valid_item` predicate of `_truncate_chat_ctx`
(triage.py lines 82-87). -/
def valid_item (keep_system_message keep_function_call : Bool) (item : Item) : Bool :=
  if !keep_system_message && item.type == .message && item.role == .system then false
  else if !keep_function_call &&
      (item.type == .function_call || item.type == .function_call_output) then false
  else true

/-- The collection loop of `_truncate_chat_ctx` (lines 89-94): walk the
already-reversed items, append each valid one, and stop as soon as the
accumulator has reached `keep_last_n_messages` entries (the length test runs
after the conditional append, exactly as in the source). -/
def truncateLoop (keep_last_n_messages : Nat)
    (keep_system_message keep_function_call : Bool) :
    List Item → List Item → List Item
  | [], new_items => new_items
  | item :: rest, new_items =>
    let new_items :=
      if valid_item keep_system_message keep_function_call item
      then new_items ++ [item] else new_items
    if keep_last_n_messages ≤ new_items.length then new_items
    else truncateLoop keep_last_n_messages keep_system_message keep_function_call
      rest new_items

/-- An item whose type is `function_call` or `function_call_output`
(the test of the trailing while loop, line 97). -/
def isToolItem (item : Item) : Bool :=
  item.type == .function_call || item.type == .function_call_output

/-- The collection phase of `_truncate_chat_ctx` (lines 89-95): run the loop
over `reversed(items)` and restore chronological order (`new_items[::-1]`). -/
def truncate_collect (items : List Item) (keep_last_n_messages : Nat)
    (keep_system_message keep_function_call : Bool) : List Item :=
  (truncateLoop keep_last_n_messages keep_system_message keep_function_call
    items.reverse []).reverse

/-- `_truncate_chat_ctx` (triage.py lines 74-100): the collection phase
followed by the post-processing while loop popping leading tool-call /
tool-call-output items. -/
def truncate_chat_ctx (items : List Item) (keep_last_n_messages : Nat := 6)
    (keep_system_message : Bool := false) (keep_function_call : Bool := false) :
    List Item :=
  (truncate_collect items keep_last_n_messages keep_system_message
    keep_function_call).dropWhile isToolItem

/-- The system message of the C2 scenario history. -/
def sysItem : Item := ⟨"0", .message, .system, "sys"⟩

/-- msg(user, "hi", id=1) of the C2 scenario history. -/
def msg1 : Item := ⟨"1", .message, .user, "hi"⟩

/-- tool_call(id=2) of the C2 scenario history. -/
def toolCall2 : Item := ⟨"2", .function_call, .assistant, ""⟩

/-- tool_result(id=3) of the C2 scenario history. -/
def toolResult3 : Item := ⟨"3", .function_call_output, .assistant, ""⟩

/-- msg(assistant, "ok", id=4) of the C2 scenario history. -/
def msg4 : Item := ⟨"4", .message, .assistant, "ok"⟩

/-- The C2 scenario input history
[sys, msg(user,"hi",1), tool_call(2), tool_result(3), msg(assistant,"ok",4)]. -/
def c2History : List Item := [sysItem, msg1, toolCall2, toolResult3, msg4]

/-- C2 counterexample: on the scenario history with keepLastN = 3,
keepSystem = false, keepToolCalls = true, `_truncate_chat_ctx` returns
[msg(4)] — the collection phase does pick [tool_call(2), tool_result(3),
msg(4)], but the post-processing loop then drops the two leading tool items,
so the claimed output [tool_call(2), tool_result(3), msg(4)] is wrong. -/
theorem truncate_scenario_counterexample :
    truncate_collect c2History 3 false true = [toolCall2, toolResult3, msg4] ∧
    truncate_chat_ctx c2History 3 false true = [msg4] ∧
    truncate_chat_ctx c2History 3 false true ≠ [toolCall2, toolResult3, msg4] := by
  refine ⟨by decide, by decide, by decide⟩

/-- C2 amended: on the scenario history with keepLastN = 3,
keepSystem = false, keepToolCalls = true, the collection phase picks
[tool_call(2), tool_result(3), msg(4)] and the final result of
`_truncate_chat_ctx` is exactly [msg(assistant,"ok",4)], since the leading
tool_call(2) and tool_result(3) are removed by the leading-item rule. -/
theorem truncate_scenario_amended :
    truncate_collect c2History 3 false true = [toolCall2, toolResult3, msg4] ∧
    truncate_chat_ctx c2History 3 false true = [msg4] := by
  refine ⟨by decide, by decide⟩

/-- The head surviving `List.dropWhile` never satisfies the dropped
predicate. -/
theorem dropWhile_head_eq_false {α : Type} (p : α → Bool) (l : List α) (a : α)
    (h : (l.dropWhile p).head? = some a) : p a = false := by
  induction l with
  | nil => simp [List.dropWhile] at h
  | cons x xs ih =>
    rw [List.dropWhile_cons] at h
    by_cases hx : p x
    · rw [if_pos hx] at h
      exact ih h
    · rw [if_neg hx] at h
      simp only [List.head?_cons, Option.some.injEq] at h
      rw [← h]
      exact Bool.not_eq_true _ ▸ eq_false_of_ne_true hx

/-- C4: for every input list and every parameter combination, the output of
`_truncate_chat_ctx` never begins with a `function_call` or
`function_call_output` item. -/
theorem truncate_no_leading_tool (items : List Item) (n : Nat) (ks kf : Bool)
    (item : Item) (h : (truncate_chat_ctx items n ks kf).head? = some item) :
    isToolItem item = false :=
  dropWhile_head_eq_false isToolItem (truncate_collect items n ks kf) item h

/-- Witness for C4: on the C2 scenario history (with keepToolCalls = true,
so tool items do survive collection) the head of the output is msg(4), a
plain message. -/
theorem truncate_no_leading_tool_witness :
    (truncate_chat_ctx c2History 3 false true).head? = some msg4 ∧
    isToolItem msg4 = false :=
  ⟨by decide, truncate_no_leading_tool c2History 3 false true msg4 (by decide)⟩

/-- C5 counterexample: with keepLastN = 0 the source history [msg(1)] has
length 1 ≥ 0, yet both the collection phase and the final output of
`_truncate_chat_ctx` contain one item — more than keepLastN — because the
source loop appends the current item before testing the length bound. -/
theorem truncate_bound_counterexample :
    (0 : Nat) ≤ ([msg1] : List Item).length ∧
    truncate_collect [msg1] 0 false false = [msg1] ∧
    truncate_chat_ctx [msg1] 0 false false = [msg1] ∧
    ¬ (truncate_chat_ctx [msg1] 0 false false).length ≤ 0 := by
  refine ⟨by decide, by decide, by decide, by decide⟩

/-- The collection loop never grows the accumulator beyond
`keep_last_n_messages`, provided the accumulator starts strictly below it. -/
theorem truncateLoop_length_le (n : Nat) (ks kf : Bool) :
    ∀ (l acc : List Item), acc.length < n →
      (truncateLoop n ks kf l acc).length ≤ n := by
  intro l
  induction l with
  | nil =>
    intro acc h
    simpa [truncateLoop] using Nat.le_of_lt h
  | cons item rest ih =>
    intro acc h
    simp only [truncateLoop]
    split
    · split
      · simp_all
        omega
      · refine ih _ ?_
        simp_all
    · split
      · omega
      · exact ih _ h

/-- Dropping a while-matched leading segment never lengthens a list. -/
theorem length_dropWhile_le {α : Type} (p : α → Bool) (l : List α) :
    (l.dropWhile p).length ≤ l.length := by
  induction l with
  | nil => simp [List.dropWhile]
  | cons x xs ih =>
    rw [List.dropWhile_cons]
    split
    · exact Nat.le_succ_of_le ih
    · simp

/-- C5 amended: for keepLastN ≥ 1 (the claim fails at keepLastN = 0, where
one extra item can be collected) and any source history of length at least
keepLastN, the collection phase of `_truncate_chat_ctx` selects at most
keepLastN items, and the final output also has length at most keepLastN. -/
theorem truncate_length_bound (items : List Item) (n : Nat) (ks kf : Bool)
    (hn : 1 ≤ n) (_hlen : n ≤ items.length) :
    (truncate_collect items n ks kf).length ≤ n ∧
    (truncate_chat_ctx items n ks kf).length ≤ n := by
  have hc : (truncate_collect items n ks kf).length ≤ n := by
    unfold truncate_collect
    rw [List.length_reverse]
    exact truncateLoop_length_le n ks kf items.reverse [] (by simpa using hn)
  refine ⟨hc, ?_⟩
  unfold truncate_chat_ctx
  exact le_trans (length_dropWhile_le isToolItem _) hc

/-- Witness for C5 (amended): the scenario history has length 5 ≥ 3 and the
truncated outputs have length at most 3. -/
theorem truncate_length_bound_witness :
    (1 : Nat) ≤ 3 ∧ (3 : Nat) ≤ c2History.length ∧
    ((truncate_collect c2History 3 false true).length ≤ 3 ∧
     (truncate_chat_ctx c2History 3 false true).length ≤ 3) :=
  ⟨by decide, by decide, truncate_length_bound c2History 3 false true (by decide) (by decide)⟩

/-- The context transfer performed by `BaseAgent.on_enter` (triage.py lines
59-65): truncate the previous persona's items with `keep_function_call=True`
(and the defaults keepLastN = 6, keepSystem = False), filter out items whose
id already occurs in the destination context, and append the rest. -/
def mergeTruncated (dest source : List Item) : List Item :=
  dest ++ (truncate_chat_ctx source 6 false true).filter
    (fun item => !((dest.map Item.id).contains item.id))

/-- C6: the id-deduplicating merge of `on_enter` is idempotent — merging the
same source history into the same destination twice yields the same
destination content as merging it once; copying a source twice never
duplicates entries. -/
theorem merge_idempotent (dest source : List Item) :
    mergeTruncated (mergeTruncated dest source) source = mergeTruncated dest source := by
  unfold mergeTruncated
  have hnil : (truncate_chat_ctx source 6 false true).filter
      (fun item => !((((dest ++ (truncate_chat_ctx source 6 false true).filter
          (fun item => !((dest.map Item.id).contains item.id))).map Item.id).contains
            item.id)))
      = [] := by
    rw [List.filter_eq_nil_iff]
    intro a ha hcontra
    have hmem2 : a.id ∈ (dest ++ (truncate_chat_ctx source 6 false true).filter
        (fun item => !((dest.map Item.id).contains item.id))).map Item.id := by
      rw [List.map_append]
      by_cases hd : (dest.map Item.id).contains a.id = true
      · exact List.mem_append_left _ (List.elem_iff.mp hd)
      · refine List.mem_append_right _ ?_
        refine List.mem_map.mpr ⟨a, List.mem_filter.mpr ⟨ha, ?_⟩, rfl⟩
        simpa using hd
    have hb : ((dest ++ (truncate_chat_ctx source 6 false true).filter
        (fun item => !((dest.map Item.id).contains item.id))).map Item.id).contains a.id
        = true := List.elem_eq_true_of_mem hmem2
    simp only [Bool.not_eq_true'] at hcontra
    rw [hb] at hcontra
    simp at hcontra
  rw [hnil, List.append_nil]

/-- The three personas constructed in `entrypoint` (triage.py lines
189-191). -/
inductive Persona where
  | triage
  | support
  | billing
deriving DecidableEq, Repr

/-- `UserData` (triage.py lines 36-41): the persona registry and the
previous-agent pointer (the JobContext field is external I/O and carries no
orchestration state). -/
structure UserData where
  personas : List (String × Persona)
  prev_agent : Option Persona
deriving DecidableEq, Repr

/-- `BaseAgent._transfer_to_agent` (triage.py lines 102-109): look the
target name up in the registry — a missing name raises `KeyError`, modelled
as `.error` — then set `prev_agent` to the current agent and return the
registered persona as the new agent. -/
def transfer_to_agent (name : String) (userdata : UserData)
    (current_agent : Persona) : Except String (UserData × Persona) :=
  match userdata.personas.lookup name with
  | some next_agent => .ok ({ userdata with prev_agent := some current_agent }, next_agent)
  | none => .error ("KeyError: " ++ name)

/-- The session state: the active persona (the agent the framework installs
as current when `_transfer_to_agent` returns it) plus the shared
`UserData`. -/
structure SessionState where
  active : Persona
  userdata : UserData
deriving DecidableEq, Repr

/-- One transfer transition: run `_transfer_to_agent` with the session's
current agent and install the returned agent as the active persona. -/
def transfer (name : String) (s : SessionState) : Except String SessionState :=
  match transfer_to_agent name s.userdata s.active with
  | .ok (ud, next_agent) => .ok { active := next_agent, userdata := ud }
  | .error e => .error e

/-- The persona registry populated in `entrypoint` (triage.py lines
194-198). -/
def initialPersonas : List (String × Persona) :=
  [("triage", .triage), ("support", .support), ("billing", .billing)]

/-- The session as started in `entrypoint` (line 212): the triage persona is
active and no previous agent is set. -/
def initialSession : SessionState :=
  { active := .triage, userdata := { personas := initialPersonas, prev_agent := none } }

/-- C7: transferring from the active persona "triage" to "billing" succeeds,
returns the billing persona registered under that name as the new active
persona and sets the previous-persona pointer to "triage"; a subsequent
transfer to "triage" restores active = triage with previous = billing. -/
theorem transfer_roundtrip :
    transfer "billing" initialSession =
      .ok { active := .billing,
            userdata := { personas := initialPersonas, prev_agent := some .triage } } ∧
    (transfer "billing" initialSession).bind (transfer "triage") =
      .ok { active := .triage,
            userdata := { personas := initialPersonas, prev_agent := some .billing } } :=
  ⟨rfl, rfl⟩

/-- `Except.isOk`-style discriminator for modelled Python calls: `true` when
the call returned normally, `false` when it raised. -/
def exceptOk {ε α : Type} : Except ε α → Bool
  | .ok _ => true
  | .error _ => false

/-- An association-list lookup succeeds exactly on registered keys. -/
theorem lookup_isSome_eq_contains (l : List (String × Persona)) (k : String) :
    (l.lookup k).isSome = (l.map Prod.fst).contains k := by
  induction l with
  | nil => rfl
  | cons hd tl ih =>
    obtain ⟨a, b⟩ := hd
    by_cases hk : k == a
    · simp [List.lookup, hk, List.contains, List.elem]
    · simp only [List.lookup, List.map, List.contains, List.elem] at *
      rw [Bool.not_eq_true] at hk
      rw [hk]
      simpa [List.contains] using ih

/-- C8: a transfer request succeeds exactly when the target name is
registered in the persona registry; an unregistered name makes
`_transfer_to_agent` raise (KeyError) to the caller rather than silently
falling back. -/
theorem transfer_fails_fast (name : String) (userdata : UserData)
    (current_agent : Persona) :
    exceptOk (transfer_to_agent name userdata current_agent)
      = (userdata.personas.map Prod.fst).contains name := by
  rw [← lookup_isSome_eq_contains]
  unfold transfer_to_agent
  cases h : userdata.personas.lookup name <;> simp [h, exceptOk]

/-- What `save_triage_log` ended up doing. -/
inductive PersistOutcome where
  | noop
  | connect_failed
  | insert_failed
  | inserted
deriving DecidableEq, Repr

/-- `save_triage_log` (main.py lines 55-78).  `db_url` is
`os.getenv("DATABASE_URL")` (`none` when unset; Python also treats the empty
string as falsy); `connect` is the outcome of `asyncpg.connect(db_url)` and
`executeInsert` the outcome of the INSERT, each `.error` when the awaited
call raises.  The connection teardown (`conn.close()` in the `finally`
block) is an external-collaborator call modelled as non-raising.  The result
is `Except`-typed so that raising to the caller is representable. -/
def save_triage_logE (db_url : Option String)
    (connect : String → Except String Unit)
    (executeInsert : Except String Unit) : Except String PersistOutcome :=
  match db_url with
  | none => .ok .noop
  | some url =>
    if url = "" then .ok .noop
    else
      match connect url with
      | .error _ => .ok .connect_failed
      | .ok _ =>
        match executeInsert with
        | .error _ => .ok .insert_failed
        | .ok _ => .ok .inserted

/-- The persistence section of `ws_triage` (main.py lines 99-107): the
`save_triage_log` call sits in its own try/except-pass, its outcome is
discarded, and the very `result` dict returned by `run_emergency_flow` is
then sent to the client. -/
def ws_send_result (result : List (String × Val)) (db_url : Option String)
    (connect : String → Except String Unit)
    (executeInsert : Except String Unit) : List (String × Val) :=
  let _log := save_triage_logE db_url connect executeInsert
  result

/-- C9: the best-effort persistence call never alters the composite result
sent to the client and never raises to the caller — for every combination of
connection and insertion outcomes `save_triage_log` returns normally, with
no configured DATABASE_URL it is a no-op, and the WebSocket handler sends
the aggregation result unchanged. -/
theorem persistence_best_effort (result : List (String × Val))
    (db_url : Option String) (connect : String → Except String Unit)
    (executeInsert : Except String Unit) :
    ws_send_result result db_url connect executeInsert = result ∧
    exceptOk (save_triage_logE db_url connect executeInsert) = true ∧
    save_triage_logE none connect executeInsert = .ok .noop := by
  refine ⟨rfl, ?_, rfl⟩
  unfold save_triage_logE
  cases db_url with
  | none => rfl
  | some url =>
    by_cases hu : url = ""
    · simp [hu, exceptOk]
    · cases hc : connect url with
      | error e => simp [hu, hc, exceptOk]
      | ok u =>
        cases he : executeInsert with
        | error e => simp [hu, hc, he, exceptOk]
        | ok v => simp [hu, hc, he, exceptOk]

end GlobalMedTriage
